import Mathlib

/-!
Verification of the flowbit_ai_system pipeline (classifier, format extractors,
action router, shared-memory store) against its natural-language specification.

Python values flowing through the pipeline are modelled by the `JValue` type
below (JSON-like data: the inputs, classifier outputs, extractor outputs and
action-trigger dictionaries are all built from dicts, lists, strings, numbers,
booleans and None).  Numbers are modelled by `ℚ`: every numeric literal the
pipeline compares (10000, 0.8, 0.95, parsed invoice totals) is exactly
representable, so rational arithmetic agrees with Python float/int semantics
on all values involved.  Python exceptions are modelled by `Except Unit`
(an `.error ()` marks a raised exception propagating out of the modelled
code).  Decision-trace strings are pure logging concatenated along the way
and observed by nothing; they are not modelled.
-/

/-- JSON-like model of the Python values handled by the pipeline. -/
inductive JValue where
  | null : JValue
  | bool (b : Bool) : JValue
  | num (q : ℚ) : JValue
  | str (s : String) : JValue
  | arr (elems : List JValue) : JValue
  | obj (fields : List (String × JValue)) : JValue

/-- A Python dict: an association list with first-occurrence lookup. -/
abbrev JObj := List (String × JValue)

/-- `d.get(k)` on a Python dict: `none` models an absent key. -/
def lookupField : JObj → String → Option JValue
  | [], _ => none
  | (k', v) :: rest, k => if k' = k then some v else lookupField rest k

/-- `d.get(k, default)` on a Python dict. -/
def getDefault (o : JObj) (k : String) (dflt : JValue) : JValue :=
  (lookupField o k).getD dflt

/-- `d[k] = v` on a Python dict: replaces the first binding or appends. -/
def objSet : JObj → String → JValue → JObj
  | [], k, v => [(k, v)]
  | (k', v') :: rest, k, v =>
      if k' = k then (k, v) :: rest else (k', v') :: objSet rest k v

/-- `v.get(k)` when `v` is known to be a dict; `none` for non-dicts. -/
def jGet (v : JValue) (k : String) : Option JValue :=
  match v with
  | .obj o => lookupField o k
  | _ => none

/-- `v.get(k, dflt)` for a dict value (defaults also for non-dicts, which the
source never reaches on this path). -/
def jGetD (v : JValue) (k : String) (dflt : JValue) : JValue :=
  (jGet v k).getD dflt

/-- Python truthiness of a value (`if x:`). -/
def truthy : JValue → Bool
  | .null => false
  | .bool b => b
  | .num q => decide (q ≠ 0)
  | .str s => decide (s ≠ "")
  | .arr xs => !xs.isEmpty
  | .obj o => !o.isEmpty

/-- Python `v == "lit"` for a string literal: true only for an equal string
(no other Python value compares equal to a `str`). -/
def eqStr (v : JValue) (s : String) : Bool :=
  match v with
  | .str t => t = s
  | _ => false

/-- Python `x == "lit"` where `x` may be absent (`dict.get` returned `None`):
`None` is never equal to a string. -/
def optEqStr (v : Option JValue) (s : String) : Bool :=
  match v with
  | some w => eqStr w s
  | none => false

/-- Python `v in [list of string literals]`. -/
def inStrList (v : JValue) (l : List String) : Bool :=
  match v with
  | .str t => t ∈ l
  | _ => false

/-- Python `x in [list of string literals]` for a possibly-absent value. -/
def optInStrList (v : Option JValue) (l : List String) : Bool :=
  match v with
  | some w => inStrList w l
  | none => false

/-- An `Optional[str]` Python value embedded as a `JValue`. -/
def optStr : Option String → JValue
  | none => .null
  | some s => .str s

/-- Python `v > q` against a numeric literal: numbers (and booleans, which are
ints in Python) compare; any other type raises `TypeError`. -/
def pyGt (v : JValue) (q : ℚ) : Except Unit Bool :=
  match v with
  | .num x => .ok (x > q)
  | .bool b => .ok ((if b then (1 : ℚ) else 0) > q)
  | _ => .error ()

theorem lookupField_objSet_self (o : JObj) (k : String) (v : JValue) :
    lookupField (objSet o k v) k = some v := by
  induction o with
  | nil => simp [objSet, lookupField]
  | cons hd tl ih =>
      obtain ⟨k', v'⟩ := hd
      by_cases h : k' = k <;> simp [objSet, lookupField, h, ih]

theorem lookupField_objSet_ne (o : JObj) (k k' : String) (v : JValue)
    (h : k' ≠ k) : lookupField (objSet o k v) k' = lookupField o k' := by
  have h' : ¬ k = k' := fun hh => h hh.symm
  induction o with
  | nil => simp [objSet, lookupField, h']
  | cons hd tl ih =>
      obtain ⟨k₀, v₀⟩ := hd
      by_cases h0 : k₀ = k
      · subst h0
        simp [objSet, lookupField, h']
      · simp only [objSet, if_neg h0, lookupField]
        by_cases h1 : k₀ = k'
        · simp [h1]
        · simp [h1, ih]

/-! ## String scanning helpers (Python `re` fragments used by the pipeline)

The heuristic classifier and the PDF parser use a handful of concrete regular
expressions.  Each one is embedded as a direct character-list matcher with the
same semantics (leftmost search; for these specific patterns greedy/lazy
quantifier behaviour is deterministic, as the relevant character classes are
disjoint). -/

/-- Python `\s` on the ASCII range used by the pipeline. -/
def isPySpace (c : Char) : Bool :=
  c = ' ' || c = '\t' || c = '\n' || c = '\r' || c = '\x0b' || c = '\x0c'

/-- Python `\w`: alphanumeric or underscore. -/
def isWordChar (c : Char) : Bool := c.isAlphanum || c = '_'

/-- Case-insensitive literal match: consumes `pat` (given lowercase) from the
front of the text, returning the rest. -/
def dropCI : List Char → List Char → Option (List Char)
  | [], rest => some rest
  | _, [] => none
  | p :: ps, c :: cs => if c.toLower = p then dropCI ps cs else none

/-- Case-sensitive literal match, consuming `pat` from the front. -/
def dropCS : List Char → List Char → Option (List Char)
  | [], rest => some rest
  | _, [] => none
  | p :: ps, c :: cs => if c = p then dropCS ps cs else none

/-- Case-sensitive prefix test. -/
def startsWithCS (needle : List Char) (hay : List Char) : Bool :=
  (dropCS needle hay).isSome

/-- Python `needle in hay` on strings (substring containment). -/
def strContainsL (needle : List Char) : List Char → Bool
  | [] => needle.isEmpty
  | c :: cs => startsWithCS needle (c :: cs) || strContainsL needle cs

/-- Does a match of predicate `p` exist at some suffix of the text?
(`re.search` existence for a pattern whose per-position test is `p`.) -/
def existsAt (p : List Char → Bool) : List Char → Bool
  | [] => p []
  | c :: cs => p (c :: cs) || existsAt p cs

/-- Word-boundary-aware search: `p` receives the previous character (if any)
and the remaining text at each candidate position. -/
def wordSearchFrom (p : Option Char → List Char → Bool) :
    Option Char → List Char → Bool
  | prev, [] => p prev []
  | prev, c :: cs => p prev (c :: cs) || wordSearchFrom p (some c) cs

/-- `\b` holds before the position given the previous character. -/
def bStart (prev : Option Char) : Bool :=
  match prev with
  | none => true
  | some c => !isWordChar c

/-- `\b` holds at the start of the remaining text. -/
def bEnd (rest : List Char) : Bool :=
  match rest with
  | [] => true
  | c :: _ => !isWordChar c

/-- Whole-word case-insensitive keyword match at the current position. -/
def kwAt (kw : String) (prev : Option Char) (cs : List Char) : Bool :=
  bStart prev &&
    (match dropCI kw.data cs with
     | some r => bEnd r
     | none => false)

/-- `Subject:.*?\n|From:.*?\n|To:.*?\n|Dear\s+\w+` (IGNORECASE | DOTALL) at
one position: a header keyword followed (with DOTALL) by any newline, or
`Dear` + whitespace + a word character. -/
def emailHeaderAt (cs : List Char) : Bool :=
  (match dropCI "subject:".data cs with
   | some r => r.contains '\n'
   | none => false) ||
  (match dropCI "from:".data cs with
   | some r => r.contains '\n'
   | none => false) ||
  (match dropCI "to:".data cs with
   | some r => r.contains '\n'
   | none => false) ||
  (match dropCI "dear".data cs with
   | some (c :: rest) => isPySpace c && isWordChar ((rest.dropWhile isPySpace).headD ' ')
   | _ => false)

/-- `\b(?:invoice|bill|document|policy|regulation)\b` (IGNORECASE) search. -/
def docKeywordSearch (cs : List Char) : Bool :=
  wordSearchFrom
    (fun prev l =>
      kwAt "invoice" prev l || kwAt "bill" prev l || kwAt "document" prev l ||
      kwAt "policy" prev l || kwAt "regulation" prev l)
    none cs

/-- `\b(?:PDF|PDF document|document analysis)\b` (IGNORECASE) search. -/
def pdfMarkerSearch (cs : List Char) : Bool :=
  wordSearchFrom
    (fun prev l =>
      kwAt "pdf" prev l || kwAt "pdf document" prev l ||
      kwAt "document analysis" prev l)
    none cs

/-- Python `s.lower()` (ASCII range). -/
def lowerStr (s : String) : String := ⟨s.data.map Char.toLower⟩

/-- Python `s.endswith(suffix)`. -/
def endsWithL (s suffix : String) : Bool := suffix.data.isSuffixOf s.data

/-! ## Classifier (`agents/classifier_agent_gemini.py`) -/

/-- `_infer_format_heuristic` from `classifier_agent_gemini.py`. -/
def infer_format_heuristic (input_content : JValue) : String :=
  match input_content with
  | .obj _ => "JSON"
  | .str s =>
      if existsAt emailHeaderAt s.data then "Email"
      else if docKeywordSearch s.data && pdfMarkerSearch s.data then "PDF"
      else if endsWithL (lowerStr s) ".pdf" then "PDF"
      else if endsWithL (lowerStr s) ".eml" || endsWithL (lowerStr s) ".msg" then "Email"
      else "Unknown"
  | _ => "Unknown"

def classification_format_enum : List String := ["JSON", "Email", "PDF", "Unknown"]

def classification_intent_enum : List String :=
  ["RFQ", "Complaint", "Invoice", "Regulation", "Fraud Risk", "Unknown"]

def classification_agent_enum : List String :=
  ["EmailAgent", "JSONAgent", "PDFAgent", "UnknownAgent"]

/-- The `{"Email": "EmailAgent", ...}.get(format, "UnknownAgent")` mapping used
by the heuristic fallback branch of `classify`. -/
def routed_agent_for_format (f : String) : String :=
  if f = "Email" then "EmailAgent"
  else if f = "JSON" then "JSONAgent"
  else if f = "PDF" then "PDFAgent"
  else "UnknownAgent"

/-- The classification built by the heuristic fallback branch of `classify`. -/
def heuristic_classification (input_content : JValue) : JValue :=
  let f := infer_format_heuristic input_content
  .obj [("format", .str f), ("intent", .str "Unknown"),
        ("routed_agent", .str (routed_agent_for_format f))]

/-- The initial `classification` dict in `classify`, also its result when the
external output is absent or unparsable (neither branch replaces it then). -/
def default_classification : JValue :=
  .obj [("format", .str "Unknown"), ("intent", .str "Unknown"),
        ("routed_agent", .str "UnknownAgent")]

/-- Python `k in v` (`__contains__`): key test for dicts, membership for
lists, substring for strings; `TypeError` otherwise. -/
def pyContainsKey (v : JValue) (k : String) : Except Unit Bool :=
  match v with
  | .obj o => .ok (lookupField o k).isSome
  | .arr xs => .ok (xs.any (fun x => eqStr x k))
  | .str s => .ok (strContainsL k.data s.data)
  | _ => .error ()

/-- Python `v[k]` for a string key: dict lookup (`KeyError` when missing),
`TypeError` for every other value. -/
def pyIndexKey (v : JValue) (k : String) : Except Unit JValue :=
  match v with
  | .obj o =>
      match lookupField o k with
      | some x => .ok x
      | none => .error ()
  | _ => .error ()

/-- Python `v[k] = x` on a dict (only reached after `v[k]` succeeded). -/
def pySetKey (v : JValue) (k : String) (x : JValue) : JValue :=
  match v with
  | .obj o => .obj (objSet o k x)
  | other => other

/-- `all(k in classification for k in ["format", "intent", "routed_agent"])`
with Python short-circuiting. -/
def pyAllKeys (v : JValue) : Except Unit Bool := do
  let b1 ← pyContainsKey v "format"
  if !b1 then return false
  let b2 ← pyContainsKey v "intent"
  if !b2 then return false
  pyContainsKey v "routed_agent"

/-- One field coercion of the validation tail:
`if classification[key] not in enum: classification[key] = repl`. -/
def coerceField (c : JValue) (key : String) (enum : List String) (fv : JValue)
    (repl : String) : JValue :=
  if inStrList fv enum then c else pySetKey c key (.str repl)

/-- The validation tail of `classify`: raise `ValueError` when a required key
is missing, then coerce each out-of-enum field value to its Unknown variant.
An `.error ()` models any exception (caught by the enclosing `except`). -/
def classify_validate (c : JValue) : Except Unit JValue :=
  match pyAllKeys c with
  | .error _ => .error ()
  | .ok false => .error ()
  | .ok true =>
    match pyIndexKey c "format" with
    | .error _ => .error ()
    | .ok fv =>
      match pyIndexKey (coerceField c "format" classification_format_enum fv
          "Unknown") "intent" with
      | .error _ => .error ()
      | .ok iv =>
        match pyIndexKey (coerceField (coerceField c "format"
            classification_format_enum fv "Unknown") "intent"
            classification_intent_enum iv "Unknown") "routed_agent" with
        | .error _ => .error ()
        | .ok rv =>
            .ok (coerceField (coerceField (coerceField c "format"
                  classification_format_enum fv "Unknown") "intent"
                  classification_intent_enum iv "Unknown") "routed_agent"
                  classification_agent_enum rv "UnknownAgent")

/-- Outcome of an inner `json.loads` call on externally produced text. -/
inductive LoadsOutcome where
  | fails : LoadsOutcome
  | succeeds (v : JValue) : LoadsOutcome

/-- Every possible observation of `await self.gemini_api.generate_content(...)`:
it raises (network failure, retry exhaustion), returns `None` (HTTP error or
empty candidate), returns a dict, returns a str (with the outcome of
re-parsing it as JSON), or returns some other JSON value. -/
inductive GeminiResp where
  | raised : GeminiResp
  | noneResp : GeminiResp
  | dictResp (o : JObj) : GeminiResp
  | strResp (s : String) (parsed : LoadsOutcome) : GeminiResp
  | otherResp (v : JValue) : GeminiResp

/-- The body of the `try` block in `classify` after the external call:
selects the candidate classification and validates it. -/
def classify_try (resp : GeminiResp) : Except Unit JValue :=
  match resp with
  | .raised => .error ()
  | .noneResp => classify_validate default_classification
  | .dictResp o => classify_validate (.obj o)
  | .strResp _ (.succeeds v) => classify_validate v
  | .strResp _ .fails => classify_validate default_classification
  | .otherResp _ => classify_validate default_classification

/-- `classify` from `classifier_agent_gemini.py`: never raises; any exception
inside the try block falls back to the heuristic classification. -/
def classify (resp : GeminiResp) (input_content : JValue) : JValue :=
  match classify_try resp with
  | .ok c => c
  | .error _ => heuristic_classification input_content

/-! ## Shared memory (`shared_memory.py`)

One row per completed run.  The sqlite engine is modelled as an in-memory
list ordered by the autoincrement id; `read_latest_interaction` returns the
last row or an empty dict. -/

/-- One row of the `interactions` table (decision-trace strings omitted:
they are write-only logging). -/
structure InteractionRecord where
  input_metadata : JObj
  classification : JObj
  agent_outputs : JValue
  chained_actions : List String

/-- `read_latest_interaction`: the most recently inserted row, if any. -/
def read_latest_interaction (store : List InteractionRecord) :
    Option InteractionRecord :=
  store.getLast?

/-- `memory.read_latest_interaction().get("classification", {}).get("intent")`
as evaluated by the extractors (`.null` models Python `None`). -/
def latestIntent (store : List InteractionRecord) : JValue :=
  match read_latest_interaction store with
  | none => .null
  | some r => (lookupField r.classification "intent").getD .null

/-! ## Extractor results

Every extractor returns a dict with keys `extracted_data`, `decision_trace`,
`chained_action` and (on most paths) `action_trigger_data`.  The JSON agent's
missing-intent path omits `action_trigger_data`, hence the `Option`. -/

/-- The dict returned by an extractor's `process_input`. -/
structure AgentResult where
  extracted_data : JValue
  chained_action : Option String
  action_trigger_data : Option JObj

/-! ## Email extractor (`agents/email_agent_gemini.py`) -/

/-- The initial `action_trigger_data` dict built before the external call. -/
def email_initial_trigger_data (store : List InteractionRecord) : JObj :=
  [("intent", latestIntent store), ("urgency", .str "Unknown"),
   ("tone", .str "Unknown"), ("issue_request", .str ""),
   ("sender", .str ""), ("subject", .str "")]

/-- The `action_trigger_data.update({...})` of the email agent: the five
extracted values (with their defaults) written over the initial dict. -/
def email_updated_atd (extracted : JValue) (atd0 : JObj) : JObj :=
  objSet (objSet (objSet (objSet (objSet atd0
    "urgency" (jGetD extracted "urgency" (.str "Unknown")))
    "tone" (jGetD extracted "tone" (.str "Unknown")))
    "issue_request" (jGetD extracted "issue_request" (.str "")))
    "sender" (jGetD extracted "sender" (.str "")))
    "subject" (jGetD extracted "subject" (.str ""))

/-- The tail of the email `try` block once `extracted_data` is a usable dict
(or the empty dict): update `action_trigger_data` and derive the chained
action from tone and urgency, in the source's branch order. -/
def email_success (extracted : JValue) (atd0 : JObj) : AgentResult :=
  ⟨extracted,
   some (if optEqStr (lookupField (email_updated_atd extracted atd0) "tone")
             "Escalation" ||
           optInStrList (lookupField (email_updated_atd extracted atd0) "urgency")
             ["High", "Critical"] then "Escalate to CRM"
         else if optEqStr (lookupField (email_updated_atd extracted atd0) "tone")
             "Threatening" then "Flag Risk and Escalate"
         else "Log and Close"),
   some (email_updated_atd extracted atd0)⟩

/-- `EmailAgent.process_input`.  `input_content` is the raw Python argument;
`file_exists` models `os.path.exists(input_content)` and `file_text` the text
recovered from an `.eml` file (both irrelevant to the returned decision, which
depends only on the external response).  `resp` is the observed outcome of the
external extraction call. -/
def email_process_input (input_content : JValue) (_file_exists : Bool)
    (_file_text : String) (store : List InteractionRecord)
    (resp : GeminiResp) : AgentResult :=
  match input_content with
  | .str _ =>
      let atd0 := email_initial_trigger_data store
      match resp with
      | .raised => ⟨.obj [], none, some atd0⟩
      | .dictResp o => email_success (.obj o) atd0
      | .strResp _ (.succeeds (.obj o)) => email_success (.obj o) atd0
      | .strResp _ (.succeeds v) => ⟨v, none, some atd0⟩
      | .strResp _ .fails => email_success (.obj []) atd0
      | .noneResp => email_success (.obj []) atd0
      | .otherResp _ => email_success (.obj []) atd0
  | _ => ⟨.obj [], none, some []⟩

/-! ## Structured-data extractor (`agents/json_agent.py`) -/

/-- The expected Python type of a schema field: `str`, the `(int, float)`
union, or `list`.  (Every numeric field in the source's schemas uses the
union, so `ℚ`-valued numbers need not distinguish int from float.) -/
inductive PyTy where
  | str : PyTy
  | numIF : PyTy
  | list : PyTy

/-- Python `isinstance(v, ty)` for the schema types (a Python `bool` is an
`int`, so it satisfies the `(int, float)` union). -/
def isinstanceJ (v : JValue) (ty : PyTy) : Bool :=
  match v, ty with
  | .str _, .str => true
  | .num _, .numIF => true
  | .bool _, .numIF => true
  | .arr _, .list => true
  | _, _ => false

/-- Printable name of a schema type (used inside error strings only). -/
def pyTyName : PyTy → String
  | .str => "str"
  | .numIF => "(int, float)"
  | .list => "list"

/-- `JSONAgent.required_schemas`. -/
def required_schemas : List (String × List (String × PyTy)) :=
  [("RFQ",
     [("request_id", .str), ("items", .list), ("due_date", .str),
      ("contact_email", .str)]),
   ("Fraud Risk",
     [("transaction_id", .str), ("amount", .numIF), ("user_id", .str),
      ("risk_score", .numIF), ("ip_address", .str)]),
   ("Invoice",
     [("invoice_number", .str), ("customer_id", .str),
      ("total_amount", .numIF), ("currency", .str), ("line_items", .list)])]

/-- `self.required_schemas.get(intent)`: dict lookup keyed by the (string)
intent; no schema for non-string intents. -/
def schema_for_intent (intent : JValue) : Option (List (String × PyTy)) :=
  match intent with
  | .str s =>
      (required_schemas.find? (fun p => p.1 = s)).map Prod.snd
  | _ => none

/-- `_validate_json_schema`: one error string per missing field or
type-mismatched field, in schema order.  (Error strings are diagnostic only;
the pipeline observes just their presence.) -/
def validate_json_schema (data : JObj) (intent : JValue) : List String :=
  match schema_for_intent intent with
  | none => ["No schema defined for intent"]
  | some schema =>
      schema.foldr
        (fun fld errs =>
          match lookupField data fld.1 with
          | none => ("Missing required field: " ++ fld.1) :: errs
          | some v =>
              if isinstanceJ v fld.2 then errs
              else ("Field " ++ fld.1 ++ " has wrong type. Expected " ++
                    pyTyName fld.2) :: errs)
        []

/-- The `action_trigger_data` dict the JSON agent builds once an intent was
recovered from the store. -/
def json_validation_atd (store : List InteractionRecord) (input_content : JObj) :
    JObj :=
  [("intent", latestIntent store), ("json_data", .obj input_content),
   ("validation_errors",
    .arr ((validate_json_schema input_content (latestIntent store)).map .str))]

/-- `JSONAgent.process_input`.  The intent is read back from shared memory
(the latest persisted interaction), not from the current run.  The `.error`
outcome models a raised exception (a non-numeric `risk_score` compared with
`0.8`; unreachable once the Fraud Risk schema validated, but kept faithful). -/
def json_process_input (store : List InteractionRecord) (input_content : JObj) :
    Except Unit AgentResult :=
  if !truthy (latestIntent store) then
    .ok ⟨.obj input_content, some "Log Anomaly", none⟩
  else if !(validate_json_schema input_content (latestIntent store)).isEmpty then
    .ok ⟨.obj input_content, some "Log Anomaly",
         some (json_validation_atd store input_content)⟩
  else if eqStr (latestIntent store) "Fraud Risk" then
    match pyGt (getDefault input_content "risk_score" (.num 0)) (4/5) with
    | .error _ => .error ()
    | .ok true =>
        .ok ⟨.obj input_content, some "Flag Fraud Risk",
             some (objSet (json_validation_atd store input_content)
                    "risk_level" (.str "High"))⟩
    | .ok false =>
        .ok ⟨.obj input_content, some "Process JSON Data",
             some (json_validation_atd store input_content)⟩
  else
    .ok ⟨.obj input_content, some "Process JSON Data",
         some (json_validation_atd store input_content)⟩

/-! ## Document extractor (`agents/pdf_agent.py`) -/

def isDigitCommaDot (c : Char) : Bool := c.isDigit || c = ',' || c = '.'

def isDigitDot (c : Char) : Bool := c.isDigit || c = '.'

def isCurrencyChar (c : Char) : Bool := c = '$' || c = '€' || c = '£'

/-- Numeric value of a digit string. -/
def digitsToNat (l : List Char) : ℕ :=
  l.foldl (fun a c => 10 * a + (c.toNat - 48)) 0

/-- Python `float(s)` for strings drawn from `[0-9.]*`: at most one dot and at
least one digit; `none` models `ValueError`. -/
def parsePyFloat (cs : List Char) : Option ℚ :=
  let intPart := cs.takeWhile Char.isDigit
  let rest := cs.dropWhile Char.isDigit
  match rest with
  | [] => if intPart.isEmpty then none else some (digitsToNat intPart)
  | '.' :: frac =>
      if frac.all Char.isDigit && !(intPart.isEmpty && frac.isEmpty) then
        some ((digitsToNat intPart : ℚ) + (digitsToNat frac : ℚ) / (10 ^ frac.length))
      else none
  | _ => none

/-- Leftmost match of a position matcher over the text (`re.search`). -/
def searchOpt {α : Type} (p : List Char → Option α) : List Char → Option α
  | [] => p []
  | c :: cs => (p (c :: cs)) <|> searchOpt p cs

/-- `(?:Total|Grand Total):\s*[$€£]?\s*([\d,\.]+)` (IGNORECASE) at one
position, returning the captured amount characters. -/
def totalAmountAt (cs : List Char) : Option (List Char) :=
  match (dropCI "total:".data cs) <|> (dropCI "grand total:".data cs) with
  | none => none
  | some r =>
      let r1 := r.dropWhile isPySpace
      let r2 := match r1 with
        | c :: t => if isCurrencyChar c then t else r1
        | [] => r1
      let r3 := r2.dropWhile isPySpace
      let g := r3.takeWhile isDigitCommaDot
      if g.isEmpty then none else some g

/-- `Invoice N[o#]?:\s*([A-Za-z0-9-]+)` (IGNORECASE) at one position. -/
def invoiceNumberAt (cs : List Char) : Option (List Char) :=
  match dropCI "invoice n".data cs with
  | none => none
  | some r =>
      let tryTail : List Char → Option (List Char) := fun t =>
        match t with
        | ':' :: t2 =>
            let t3 := t2.dropWhile isPySpace
            let g := t3.takeWhile (fun c => c.isAlphanum || c = '-')
            if g.isEmpty then none else some g
        | _ => none
      (match r with
       | c :: r2 => if c.toLower = 'o' || c = '#' then tryTail r2 else none
       | [] => none) <|> tryTail r

/-- `(?:Total|Grand Total):\s*([$€£])` (case-sensitive) at one position. -/
def currencyAt (cs : List Char) : Option Char :=
  match (dropCS "Total:".data cs) <|> (dropCS "Grand Total:".data cs) with
  | none => none
  | some r =>
      match r.dropWhile isPySpace with
      | c :: _ => if isCurrencyChar c then some c else none
      | [] => none

/-- A nonempty maximal run of characters satisfying `p` (a greedy `X+` whose
follower class is disjoint from `X`). -/
def takeRun (p : Char → Bool) (cs : List Char) : Option (List Char × List Char) :=
  let run := cs.takeWhile p
  if run.isEmpty then none else some (run, cs.dropWhile p)

/-- `\s+(\d+)\s+([\d.]+)\s+([\d.]+)` after the lazy description group. -/
def lineTailMatch (cs : List Char) :
    Option (List Char × List Char × List Char) := do
  let (_, r1) ← takeRun isPySpace cs
  let (q, r2) ← takeRun Char.isDigit r1
  let (_, r3) ← takeRun isPySpace r2
  let (up, r4) ← takeRun isDigitDot r3
  let (_, r5) ← takeRun isPySpace r4
  let (lt, _) ← takeRun isDigitDot r5
  pure (q, up, lt)

/-- Grow the lazy `([\w\s]+?)` group one character at a time, trying the
numeric tail after each extension (lazy-quantifier semantics). -/
def lineGroupGrow (acc : List Char) :
    List Char → Option (List Char × List Char × List Char × List Char)
  | [] => none
  | c :: rest =>
      if isWordChar c || isPySpace c then
        match lineTailMatch rest with
        | some (q, up, lt) => some (acc ++ [c], q, up, lt)
        | none => lineGroupGrow (acc ++ [c]) rest
      else none

/-- `re.search(r"([\w\s]+?)\s+(\d+)\s+([\d.]+)\s+([\d.]+)", line)`: leftmost
start position, then shortest description group. -/
def lineSearch : List Char → Option (List Char × List Char × List Char × List Char)
  | [] => none
  | c :: cs => (lineGroupGrow [] (c :: cs)) <|> lineSearch cs

/-- Python `s.strip()`. -/
def stripL (cs : List Char) : List Char :=
  ((cs.dropWhile isPySpace).reverse.dropWhile isPySpace).reverse

/-- Python `text.split("\n")`. -/
def splitLinesAux : List Char → List (List Char)
  | [] => [[]]
  | c :: cs =>
      if c = '\n' then [] :: splitLinesAux cs
      else
        match splitLinesAux cs with
        | [] => [[c]]
        | l :: ls => (c :: l) :: ls

/-- One line of the simplified line-item parser; `none` when the pattern does
not match or a numeric conversion fails (`ValueError` caught and skipped). -/
def lineToItem (line : List Char) : Option JValue :=
  match lineSearch (stripL line) with
  | none => none
  | some (desc, q, up, lt) =>
      match parsePyFloat up, parsePyFloat lt with
      | some u, some l =>
          some (.obj [("description", .str ⟨stripL desc⟩),
                      ("quantity", .num (digitsToNat q : ℚ)),
                      ("unit_price", .num u), ("line_total", .num l)])
      | _, _ => none

def parse_line_items (text : List Char) : List JValue :=
  (splitLinesAux text).filterMap lineToItem

/-- The currency field of `_parse_invoice_data` (defaults to "USD"). -/
def currencyVal (text : List Char) : JValue :=
  match searchOpt currencyAt text with
  | some c => .str ⟨[c]⟩
  | none => .str "USD"

/-- The invoice-number field of `_parse_invoice_data` (defaults to "N/A"). -/
def invoice_number_val (text : List Char) : JValue :=
  match searchOpt invoiceNumberAt text with
  | some g => .str ⟨g⟩
  | none => .str "N/A"

/-- The dict `_parse_invoice_data` assembles once the total is known. -/
def invoice_fields (text : List Char) (total : ℚ) : JObj :=
  [("invoice_number", invoice_number_val text), ("total_amount", .num total),
   ("currency", currencyVal text), ("line_items", .arr (parse_line_items text))]

/-- `_parse_invoice_data`: the total amount's captured text has its commas
stripped and is fed to `float(...)`, whose `ValueError` (for a malformed
capture such as `12,500.00.`) propagates — hence the `Except`. -/
def parse_invoice_data (text : List Char) : Except Unit JObj :=
  match searchOpt totalAmountAt text with
  | none => .ok (invoice_fields text 0)
  | some g =>
      match parsePyFloat (g.filter (fun c => c ≠ ',')) with
      | none => .error ()
      | some q => .ok (invoice_fields text q)

/-- `_check_policy_mentions`: whole-word case-insensitive scan for the fixed
keyword set, in source order. -/
def check_policy_mentions (text : List Char) : List String :=
  (if wordSearchFrom (fun p l => kwAt "gdpr" p l) none text then ["GDPR"] else []) ++
  (if wordSearchFrom (fun p l => kwAt "fda" p l) none text then ["FDA"] else []) ++
  (if wordSearchFrom (fun p l => kwAt "hipaa" p l) none text then ["HIPAA"] else []) ++
  (if wordSearchFrom
      (fun p l => kwAt "ccpa" p l || kwAt "california consumer privacy act" p l)
      none text then ["CCPA"] else [])

/-- `"Error extracting text" in pdf_text or not pdf_text.strip()`. -/
def pdf_extraction_failed (pdf_text : String) : Bool :=
  strContainsL "Error extracting text".data pdf_text.data ||
    (stripL pdf_text.data).isEmpty

/-- `extracted_data` as initialized by the PDF agent (a 500-char snippet). -/
def pdf_extracted0 (pdf_text : String) : JObj :=
  [("raw_text_snippet", .str ⟨pdf_text.data.take 500⟩)]

/-- `action_trigger_data` as initialized by the PDF agent. -/
def pdf_atd0 (pdf_path pdf_text : String) : JObj :=
  [("pdf_path", .str pdf_path),
   ("extracted_text_snippet", .str ⟨pdf_text.data.take 200⟩)]

/-- `PDFAgent.process_input`.  `path_exists` models `os.path.exists` and
`pdf_text` the text produced by the external extraction capability for a
valid path (PyPDF2 — possibly an `Error extracting text...` marker string).
The intent is read back from shared memory. -/
def pdf_process_input (path_exists : Bool) (pdf_path : String)
    (pdf_text : String) (store : List InteractionRecord) :
    Except Unit AgentResult :=
  if !path_exists || !endsWithL (lowerStr pdf_path) ".pdf" then
    .ok ⟨.obj [], some "Log Error", some []⟩
  else if pdf_extraction_failed pdf_text then
    .ok ⟨.obj [("pdf_extraction_error", .str pdf_text)],
         some "Review PDF Manually", some []⟩
  else
    if eqStr (latestIntent store) "Invoice" then
      match parse_invoice_data pdf_text.data with
      | .error _ => .error ()
      | .ok invoice_data =>
          match pyGt (getDefault invoice_data "total_amount" (.num 0)) 10000 with
          | .error _ => .error ()
          | .ok true =>
              .ok ⟨.obj (objSet (pdf_extracted0 pdf_text) "invoice_details"
                     (.obj invoice_data)),
                   some "Flag High Value Invoice",
                   some (objSet (objSet (pdf_atd0 pdf_path pdf_text)
                          "invoice_total"
                          (getDefault invoice_data "total_amount" .null))
                         "invoice_number"
                         ((lookupField invoice_data "invoice_number").getD .null))⟩
          | .ok false =>
              .ok ⟨.obj (objSet (pdf_extracted0 pdf_text) "invoice_details"
                     (.obj invoice_data)),
                   some "Process Invoice", some (pdf_atd0 pdf_path pdf_text)⟩
    else if eqStr (latestIntent store) "Regulation" then
      if !(check_policy_mentions pdf_text.data).isEmpty then
        .ok ⟨.obj (objSet (pdf_extracted0 pdf_text) "policy_mentions"
               (.arr ((check_policy_mentions pdf_text.data).map .str))),
             some "Flag Compliance Risk",
             some (objSet (pdf_atd0 pdf_path pdf_text) "compliance_keywords"
                    (.arr ((check_policy_mentions pdf_text.data).map .str)))⟩
      else
        .ok ⟨.obj (objSet (pdf_extracted0 pdf_text) "policy_mentions"
               (.arr ((check_policy_mentions pdf_text.data).map .str))),
             some "Process Policy Document", some (pdf_atd0 pdf_path pdf_text)⟩
    else
      .ok ⟨.obj (pdf_extracted0 pdf_text), some "Review PDF Manually",
           some (pdf_atd0 pdf_path pdf_text)⟩

/-! ## Action router (`agents/action_router.py`) -/

/-- Which simulated side effect a router branch executes. -/
inductive EffectKind where
  | crmEscalate : EffectKind
  | riskAlert : EffectKind
  | logAndClose : EffectKind
deriving DecidableEq

/-- A resolved router branch: the side effect executed plus the `"type"` tag
the branch places in the simulated call's payload (which identifies the branch
taken: Strategy 1 tags for explicit recommendations, `Classifier-driven ...`
tags for the intent fallback, and the default tag). -/
structure EffectCall where
  kind : EffectKind
  typeTag : String
deriving DecidableEq

/-- The routine-processing labels grouped in the router's membership test. -/
def routine_labels : List String :=
  ["Log and Close", "Process JSON Data", "Process Invoice",
   "Process Policy Document", "Review PDF Manually"]

/-- `specialized_agent_recommended_action in [routine labels]`, keeping the
matched label for the interpolated trace/type tag. -/
def asRoutineLabel (ca : Option JValue) : Option String :=
  match ca with
  | some (.str l) => if l ∈ routine_labels then some l else none
  | _ => none

/-- Strategy 2 of `trigger_final_action`: intent-based fallback rules and the
default, in source order.  The `Invoice` comparison can raise `TypeError` for
a non-numeric `invoice_total` (hence `Except`). -/
def fallback_action (intent : JValue) (d : JObj) : Except Unit EffectCall :=
  if eqStr intent "Complaint" &&
     optInStrList (lookupField d "urgency") ["High", "Critical"] then
    .ok ⟨.crmEscalate, "Classifier-driven Complaint Escalation"⟩
  else if eqStr intent "Fraud Risk" &&
          optEqStr (lookupField d "risk_level") "High" then
    .ok ⟨.riskAlert, "Classifier-driven Fraud Risk Detected"⟩
  else if eqStr intent "Invoice" then
    match pyGt (getDefault d "invoice_total" (.num 0)) 10000 with
    | .error _ => .error ()
    | .ok true => .ok ⟨.riskAlert, "Classifier-driven High Value Invoice Alert"⟩
    | .ok false => .ok ⟨.logAndClose, "Routine Processing (Default)"⟩
  else if eqStr intent "Regulation" &&
          truthy (getDefault d "compliance_keywords" .null) then
    .ok ⟨.riskAlert, "Classifier-driven Compliance Risk Flagged"⟩
  else
    .ok ⟨.logAndClose, "Routine Processing (Default)"⟩

/-- The branch selection of `trigger_final_action`: Strategy 1 (the explicit
`chained_action` table) first, then asRoutineLabel, then the intent fallback. -/
def trigger_final_action (intent : JValue) (d : JObj) : Except Unit EffectCall :=
  let ca := lookupField d "chained_action"
  if optEqStr ca "Escalate to CRM" then
    .ok ⟨.crmEscalate, "Specialized Agent Escalation (CRM)"⟩
  else if optEqStr ca "Flag Risk and Escalate" then
    .ok ⟨.riskAlert, "Specialized Agent Risk Flag (Escalate)"⟩
  else if optEqStr ca "Log Anomaly" then
    .ok ⟨.logAndClose, "Anomaly Logged"⟩
  else if optEqStr ca "Flag High Value Invoice" then
    .ok ⟨.riskAlert, "High Value Invoice Alert"⟩
  else if optEqStr ca "Flag Compliance Risk" then
    .ok ⟨.riskAlert, "Compliance Risk Flagged"⟩
  else
    match asRoutineLabel ca with
    | some l => .ok ⟨.logAndClose, "Routine Processed (" ++ l ++ ")"⟩
    | none => fallback_action intent d

/-- The labels recognized by the router's Strategy 1 table. -/
def recognized_labels : List String :=
  ["Escalate to CRM", "Flag Risk and Escalate", "Log Anomaly",
   "Flag High Value Invoice", "Flag Compliance Risk", "Log and Close",
   "Process JSON Data", "Process Invoice", "Process Policy Document",
   "Review PDF Manually"]

/-- The side effect the Strategy 1 table maps each recognized label to. -/
def strategy1_effect (l : String) : EffectCall :=
  if l = "Escalate to CRM" then ⟨.crmEscalate, "Specialized Agent Escalation (CRM)"⟩
  else if l = "Flag Risk and Escalate" then ⟨.riskAlert, "Specialized Agent Risk Flag (Escalate)"⟩
  else if l = "Log Anomaly" then ⟨.logAndClose, "Anomaly Logged"⟩
  else if l = "Flag High Value Invoice" then ⟨.riskAlert, "High Value Invoice Alert"⟩
  else if l = "Flag Compliance Risk" then ⟨.riskAlert, "Compliance Risk Flagged"⟩
  else ⟨.logAndClose, "Routine Processed (" ++ l ++ ")"⟩

/-- The type tags that mark a Strategy 2 (intent fallback) or default branch. -/
def fallback_tags : List String :=
  ["Classifier-driven Complaint Escalation", "Classifier-driven Fraud Risk Detected",
   "Classifier-driven High Value Invoice Alert",
   "Classifier-driven Compliance Risk Flagged", "Routine Processing (Default)"]

/-! ## Retry policy (`tenacity` decorators on the simulated side effects)

`@retry(wait=wait_exponential(multiplier=1, min=1, max=5),
stop=stop_after_attempt(3), retry=retry_if_exception_type(<transport errors>))`.
One attempt of the wrapped coroutine either returns a string or raises; only
transport-level exceptions re-raised by the body reach tenacity's retry test.
With the decorator's defaults (`reraise=False`), exhausting the stop condition
raises `tenacity.RetryError` to the caller. -/

/-- The observable outcome of one attempt of a simulated side-effect call. -/
inductive AttemptOutcome where
  | ok : AttemptOutcome
  | transient : AttemptOutcome
  | httpStatus (code : ℕ) (text : String) : AttemptOutcome
  | otherExc (msg : String) : AttemptOutcome

/-- Body of `_simulate_crm_escalate`: transport errors re-raise (for tenacity),
HTTP status errors and unexpected exceptions convert to failure strings. -/
def crm_escalate_body (o : AttemptOutcome) : Except Unit String :=
  match o with
  | .ok => .ok "CRM escalation simulated"
  | .transient => .error ()
  | .httpStatus c t =>
      .ok ("CRM escalation failed (HTTP error " ++ toString c ++ "): " ++ t)
  | .otherExc m => .ok ("CRM escalation failed (unexpected error): " ++ m)

/-- Body of `_simulate_risk_alert` (same structure). -/
def risk_alert_body (o : AttemptOutcome) : Except Unit String :=
  match o with
  | .ok => .ok "Risk alert simulated"
  | .transient => .error ()
  | .httpStatus c t =>
      .ok ("Risk alert failed (HTTP error " ++ toString c ++ "): " ++ t)
  | .otherExc m => .ok ("Risk alert failed (unexpected error): " ++ m)

/-- `wait_exponential(multiplier=1, min=1, max=5)` after attempt `n`
(1-based): `multiplier * 2^(n-1)` clamped into `[min, max]` — 1s, 2s, 4s ...
capped at 5s, as the source comments state. -/
def wait_exponential_1_1_5 (n : ℕ) : ℚ :=
  max 1 (min ((2 : ℚ) ^ (n - 1)) 5)

/-- Trace of one tenacity-wrapped call: how many attempts ran, the sleeps
between them, and the final outcome (`.error ()` = `RetryError` raised). -/
structure RetryTrace where
  attempts : ℕ
  waits : List ℚ
  result : Except Unit String

/-- Run the tenacity loop: `remaining` attempts are still allowed, `k` is the
1-based number of the attempt about to run. -/
def tenacityGo (body : ℕ → Except Unit String) (w : ℕ → ℚ) :
    ℕ → ℕ → List ℚ → RetryTrace
  | 0, k, ws => ⟨k - 1, ws.reverse, .error ()⟩
  | remaining + 1, k, ws =>
      match body k with
      | .ok v => ⟨k, ws.reverse, .ok v⟩
      | .error _ =>
          if remaining = 0 then ⟨k, ws.reverse, .error ()⟩
          else tenacityGo body w remaining (k + 1) (w k :: ws)

/-- A `stop_after_attempt(3)` tenacity call with the configured backoff. -/
def tenacityCall (body : ℕ → Except Unit String) : RetryTrace :=
  tenacityGo body wait_exponential_1_1_5 3 1 []

/-- The retry-wrapped CRM escalation, given per-attempt outcomes. -/
def crm_escalate_call (outcomes : ℕ → AttemptOutcome) : RetryTrace :=
  tenacityCall (fun k => crm_escalate_body (outcomes k))

/-- The retry-wrapped risk alert, given per-attempt outcomes. -/
def risk_alert_call (outcomes : ℕ → AttemptOutcome) : RetryTrace :=
  tenacityCall (fun k => risk_alert_body (outcomes k))

/-- Execute the side effect a router branch selected.  `_simulate_log_and_close`
has no retry decorator and always succeeds locally. -/
def run_effect (e : EffectCall) (crmO riskO : ℕ → AttemptOutcome) :
    Except Unit String :=
  match e.kind with
  | .crmEscalate => (crm_escalate_call crmO).result
  | .riskAlert => (risk_alert_call riskO).result
  | .logAndClose => .ok "Interaction logged and closed (routine)"

/-! ## Orchestrator (`main.py`, core of `upload_input` after input validation)

The run sequences: external classification (already observed as `classif`),
routed extractor, action resolution, side effect, then the single
`memory.write_interaction` call at the very end.  The routed extractor is
passed as a function of the store it reads (`agentRun`), matching the three
dispatch branches; every extractor return dict carries a `chained_action` key,
so `"chained_action" in agent_output_data` holds and the value (possibly
`None`) is copied into the router's trigger data.  A raised exception at any
step propagates out of the endpoint before the persistence write. -/

/-- Everything a completed (non-raising) run produces. -/
structure UploadResult where
  classification : JObj
  agentOutput : AgentResult
  finalStatus : String
  newStore : List InteractionRecord

/-- `classification_result.get("routed_agent")` followed by pydantic's
`AgentOutput(agent_name=...)` validation: a raise unless it is a string
(`classify` never produces a non-string here). -/
def routedAgentName (classif : JObj) : Except Unit String :=
  match lookupField classif "routed_agent" with
  | some (.str n) => .ok n
  | _ => .error ()

/-- `classification_result["intent"]` (`KeyError` when absent). -/
def classifIntent (classif : JObj) : Except Unit JValue :=
  match lookupField classif "intent" with
  | some v => .ok v
  | none => .error ()

/-- The core run; `meta` stands for the request's `input_metadata` dict and
`agentRun` for the dispatched extractor as a function of the store it reads. -/
def runUpload (store : List InteractionRecord) (meta : JObj) (classif : JObj)
    (agentRun : List InteractionRecord → Except Unit AgentResult)
    (crmO riskO : ℕ → AttemptOutcome) : Except Unit UploadResult := do
  let agentOut ← agentRun store
  let d := objSet (agentOut.action_trigger_data.getD []) "chained_action"
    (optStr agentOut.chained_action)
  let agentName ← routedAgentName classif
  let intentJ ← classifIntent classif
  let eff ← trigger_final_action intentJ d
  let status ← run_effect eff crmO riskO
  pure ⟨classif, agentOut, status,
        store ++ [⟨meta, classif, .obj [(agentName, agentOut.extracted_data)],
                   [status]⟩]⟩

/-- The store after a run: unchanged when the run raised (the write at the end
of `upload_input` is never reached), else extended by exactly one record. -/
def runUploadStore (store : List InteractionRecord) (meta : JObj) (classif : JObj)
    (agentRun : List InteractionRecord → Except Unit AgentResult)
    (crmO riskO : ℕ → AttemptOutcome) : List InteractionRecord :=
  match runUpload store meta classif agentRun crmO riskO with
  | .ok r => r.newStore
  | .error _ => store

/-! ## Helper lemmas -/

/-- Any recognized `chained_action` label resolves in Strategy 1, to the
effect of the label's table row. -/
theorem trigger_recognized (intent : JValue) (d : JObj) (l : String)
    (hca : lookupField d "chained_action" = some (.str l))
    (hl : l ∈ recognized_labels) :
    trigger_final_action intent d = .ok (strategy1_effect l) := by
  simp only [recognized_labels, List.mem_cons, List.not_mem_nil, or_false] at hl
  rcases hl with rfl | rfl | rfl | rfl | rfl | rfl | rfl | rfl | rfl | rfl <;>
    simp [trigger_final_action, strategy1_effect, asRoutineLabel, routine_labels,
          hca, optEqStr, eqStr]

/-! ## C1 -/

/-- C1: for every run in which the routed extractor returns a `chainedAction`
equal to one of the ten labels of the Action Resolver's table, the router
executes the side effect the table maps to that label (Strategy 1) and never
reaches the intent-based fallback branches — its branch tag is never one of
the fallback tags — regardless of the intent and of every other field of the
trigger context. -/
theorem C1_chained_action_precedence (intent : JValue) (d : JObj) (l : String)
    (hca : lookupField d "chained_action" = some (.str l))
    (hl : l ∈ recognized_labels) :
    trigger_final_action intent d = .ok (strategy1_effect l) ∧
    (strategy1_effect l).typeTag ∉ fallback_tags := by
  refine ⟨trigger_recognized intent d l hca hl, ?_⟩
  simp only [recognized_labels, List.mem_cons, List.not_mem_nil, or_false] at hl
  rcases hl with rfl | rfl | rfl | rfl | rfl | rfl | rfl | rfl | rfl | rfl <;> decide

/-- Witness for C1: chained action "Log Anomaly" together with an intent and
urgency for which the Complaint fallback rule would also match. -/
theorem C1_chained_action_precedence_witness :
    trigger_final_action (.str "Complaint")
        [("chained_action", .str "Log Anomaly"), ("urgency", .str "High")] =
      .ok (strategy1_effect "Log Anomaly") ∧
    (strategy1_effect "Log Anomaly").typeTag ∉ fallback_tags :=
  C1_chained_action_precedence (.str "Complaint")
    [("chained_action", .str "Log Anomaly"), ("urgency", .str "High")]
    "Log Anomaly" rfl (by decide)

/-- A trigger context with none of the fallback-rule fields resolves to the
router's default log-and-close for every intent. -/
theorem fallback_action_default (intent : JValue) (d : JObj)
    (hu : lookupField d "urgency" = none)
    (hr : lookupField d "risk_level" = none)
    (hi : lookupField d "invoice_total" = none)
    (hc : lookupField d "compliance_keywords" = none) :
    fallback_action intent d = .ok ⟨.logAndClose, "Routine Processing (Default)"⟩ := by
  simp only [fallback_action, hu, hr, hi, hc, optInStrList, optEqStr, getDefault,
             Option.getD_none, truthy, pyGt, Bool.and_false]
  split_ifs <;> first | rfl | contradiction

/-! ## C10 -/

/-- C10: when the input path does not exist on disk or does not end in
".pdf", the Document extractor returns empty extracted fields with
`chained_action = "Log Error"` — a label absent from the router's table — and
the run's resulting trigger context (`{}` plus the copied chained action)
resolves through the fallback side of the router for every intent: here the
default log-and-close, whose tag is a fallback tag, never a Strategy 1 row. -/
theorem C10_invalid_pdf_path_fallback (path_exists : Bool) (pdf_path : String)
    (pdf_text : String) (store : List InteractionRecord)
    (h : path_exists = false ∨ endsWithL (lowerStr pdf_path) ".pdf" = false) :
    pdf_process_input path_exists pdf_path pdf_text store =
      .ok ⟨.obj [], some "Log Error", some []⟩ ∧
    "Log Error" ∉ recognized_labels ∧
    ∀ intent : JValue,
      trigger_final_action intent
          (objSet [] "chained_action" (optStr (some "Log Error"))) =
        .ok ⟨.logAndClose, "Routine Processing (Default)"⟩ ∧
      "Routine Processing (Default)" ∈ fallback_tags := by
  refine ⟨?_, by decide, ?_⟩
  · rcases h with h | h
    · subst h; rfl
    · cases path_exists
      · rfl
      · unfold pdf_process_input
        rw [h]
        rfl
  · intro intent
    refine ⟨?_, by decide⟩
    show fallback_action intent [("chained_action", .str "Log Error")] = _
    exact fallback_action_default intent _ rfl rfl rfl rfl

/-- Witness for C10: an existing path without a ".pdf" extension, resolved
under intent Complaint. -/
theorem C10_invalid_pdf_path_fallback_witness :
    pdf_process_input true "file.txt" "some text" [] =
      .ok ⟨.obj [], some "Log Error", some []⟩ ∧
    "Log Error" ∉ recognized_labels ∧
    trigger_final_action (.str "Complaint")
        (objSet [] "chained_action" (optStr (some "Log Error"))) =
      .ok ⟨.logAndClose, "Routine Processing (Default)"⟩ ∧
    "Routine Processing (Default)" ∈ fallback_tags := by
  obtain ⟨h1, h2, h3⟩ :=
    C10_invalid_pdf_path_fallback true "file.txt" "some text" [] (Or.inr rfl)
  obtain ⟨h4, h5⟩ := h3 (.str "Complaint")
  exact ⟨h1, h2, h4, h5⟩

/-! ## C2 -/

/-- A concrete classification routing to the email extractor, used to drive a
run whose resolved action is the CRM escalation. -/
def crmRunClassif : JObj :=
  [("format", .str "Email"), ("intent", .str "Complaint"),
   ("routed_agent", .str "EmailAgent")]

/-- The email-extractor step of that run: the external extraction returns an
Escalation tone, so the chained action is "Escalate to CRM". -/
def crmRunAgent (st : List InteractionRecord) : Except Unit AgentResult :=
  .ok (email_process_input (.str "mail body") false "" st
        (.dictResp [("tone", .str "Escalation")]))

/-- C2, evaluated at the failing input (a CRM escalation whose underlying
operation raises a transient transport error on every attempt): the call is
attempted exactly 3 times with non-decreasing backoff waits of 1s then 2s,
and an application-level HTTP error response is never retried (a single
attempt, converted into a failure string).  However, exhausting the retries
makes the tenacity wrapper raise `RetryError` (`.error ()`) instead of
returning a terminal failure status string, and the enclosing run therefore
aborts before `memory.write_interaction`: the store is unchanged — contrary
to the claim's "terminal failure status string ... pipeline still continuing
to completion and performing its single end-of-run persistence write". -/
theorem C2_retry_exhaustion_raises_and_skips_write :
    (crm_escalate_call (fun _ => .transient)).attempts = 3 ∧
    (crm_escalate_call (fun _ => .transient)).waits = [1, 2] ∧
    List.Chain' (· ≤ ·) (crm_escalate_call (fun _ => .transient)).waits ∧
    (crm_escalate_call (fun _ => .transient)).result = .error () ∧
    (crm_escalate_call (fun _ => .httpStatus 500 "server error")).attempts = 1 ∧
    (crm_escalate_call (fun _ => .httpStatus 500 "server error")).result =
      .ok "CRM escalation failed (HTTP error 500): server error" ∧
    runUpload [] [] crmRunClassif crmRunAgent
        (fun _ => .transient) (fun _ => .ok) = .error () ∧
    runUploadStore [] [] crmRunClassif crmRunAgent
        (fun _ => .transient) (fun _ => .ok) = [] := by
  refine ⟨rfl, ?_, ?_, rfl, rfl, rfl, rfl, rfl⟩
  · show [wait_exponential_1_1_5 1, wait_exponential_1_1_5 2] = [1, 2]
    norm_num [wait_exponential_1_1_5]
  · show List.Chain' (· ≤ ·) [wait_exponential_1_1_5 1, wait_exponential_1_1_5 2]
    norm_num [wait_exponential_1_1_5]

/-! ## C9 -/

theorem ok_bind {α β : Type} (a : α) (f : α → Except Unit β) :
    (Except.ok a >>= f) = f a := rfl

theorem error_bind {α β : Type} (e : Unit) (f : α → Except Unit β) :
    (Except.error e >>= f) = (Except.error e : Except Unit β) := rfl

/-- Whenever the structured-data extractor returns an `action_trigger_data`
dict, its `intent` entry is exactly the intent read back from the store. -/
theorem json_process_intent_from_store (store : List InteractionRecord)
    (data : JObj) (r : AgentResult) (h : json_process_input store data = .ok r) :
    ∀ atd, r.action_trigger_data = some atd →
      lookupField atd "intent" = some (latestIntent store) := by
  intro atd hatd
  unfold json_process_input at h
  split at h
  · cases h; cases hatd
  · split at h
    · cases h; cases hatd; rfl
    · split at h
      · split at h
        · cases h
        · cases h
          cases hatd
          rw [lookupField_objSet_ne _ _ _ _ (by decide)]
          rfl
        · cases h; cases hatd; rfl
      · cases h; cases hatd; rfl

/-- Reading the latest intent right after a run's append returns that run's
persisted classification intent. -/
theorem latestIntent_append (store : List InteractionRecord)
    (rec : InteractionRecord) :
    latestIntent (store ++ [rec]) =
      (lookupField rec.classification "intent").getD .null := by
  unfold latestIntent read_latest_interaction
  simp

/-- The `intent` entry of the email agent's trigger data survives the five
field updates: it is exactly the intent read back from the store. -/
theorem email_atd_intent (extracted : JValue) (store : List InteractionRecord) :
    lookupField (email_updated_atd extracted (email_initial_trigger_data store))
      "intent" = some (latestIntent store) := by
  unfold email_updated_atd
  rw [lookupField_objSet_ne _ _ _ _ (by decide),
      lookupField_objSet_ne _ _ _ _ (by decide),
      lookupField_objSet_ne _ _ _ _ (by decide),
      lookupField_objSet_ne _ _ _ _ (by decide),
      lookupField_objSet_ne _ _ _ _ (by decide)]
  rfl

/-- Whenever the email extractor (on a string input) returns an
`action_trigger_data` dict, its `intent` entry is exactly the intent read
back from the store, on every response path. -/
theorem email_process_intent_from_store (s file_text : String)
    (file_exists : Bool) (store : List InteractionRecord) (resp : GeminiResp) :
    ∀ atd, (email_process_input (.str s) file_exists file_text store
        resp).action_trigger_data = some atd →
      lookupField atd "intent" = some (latestIntent store) := by
  intro atd hatd
  cases resp with
  | raised => cases hatd; rfl
  | noneResp => cases hatd; exact email_atd_intent (.obj []) store
  | dictResp o => cases hatd; exact email_atd_intent (.obj o) store
  | otherResp v => cases hatd; exact email_atd_intent (.obj []) store
  | strResp t parsed =>
      cases parsed with
      | fails => cases hatd; exact email_atd_intent (.obj []) store
      | succeeds v =>
          cases v with
          | obj o => cases hatd; exact email_atd_intent (.obj o) store
          | null => cases hatd; rfl
          | bool b => cases hatd; rfl
          | num q => cases hatd; rfl
          | str s2 => cases hatd; rfl
          | arr xs => cases hatd; rfl

/-- The JSON extractor depends on the store only through the latest persisted
classification intent. -/
theorem json_process_store_latest (store store' : List InteractionRecord)
    (data : JObj) (h : latestIntent store = latestIntent store') :
    json_process_input store data = json_process_input store' data := by
  unfold json_process_input json_validation_atd
  rw [h]

/-- The email extractor depends on the store only through the latest
persisted classification intent. -/
theorem email_process_store_latest (input : JValue) (file_exists : Bool)
    (file_text : String) (store store' : List InteractionRecord)
    (resp : GeminiResp) (h : latestIntent store = latestIntent store') :
    email_process_input input file_exists file_text store resp =
      email_process_input input file_exists file_text store' resp := by
  unfold email_process_input email_initial_trigger_data
  rw [h]

/-- The PDF extractor depends on the store only through the latest persisted
classification intent. -/
theorem pdf_process_store_latest (path_exists : Bool)
    (pdf_path pdf_text : String) (store store' : List InteractionRecord)
    (h : latestIntent store = latestIntent store') :
    pdf_process_input path_exists pdf_path pdf_text store =
      pdf_process_input path_exists pdf_path pdf_text store' := by
  unfold pdf_process_input
  rw [h]

/-- C9: for every run, the classification (in particular the intent) that the
routed extractor — email, JSON, or PDF — obtains by reading the latest
interaction from the Record Store is the classification persisted by the most
recently completed previous run (empty when the store has no records), never
the classification just computed for the current run, because the
orchestrator invokes the extractor on the pre-write store and performs its
single write — the first record to contain the current classification — only
after extraction and action resolution have finished.  Conjuncts: (1) a
completed run (whichever extractor `agentRun` it was routed to) ran that
extractor on the prior store and appended exactly one record, carrying the
current classification; (2) the extractor's output is identical under any two
current classifications; (3) and (4) the JSON and email extractors record
exactly `latestIntent store` — the previously persisted intent — as the
intent they read, in their trigger contexts; (5) each of the three extractors
(PDF included, which keeps no intent field) is a function of the store only
through the latest persisted intent; (6) after a run appends its record, a
later "read latest" returns that record's classification intent. -/
theorem C9_extractor_reads_previous_run
    (store store' : List InteractionRecord) (meta classif classif' data : JObj)
    (s file_text pdf_path pdf_text : String) (file_exists path_exists : Bool)
    (resp : GeminiResp)
    (agentRun : List InteractionRecord → Except Unit AgentResult)
    (crmO riskO crmO' riskO' : ℕ → AttemptOutcome) :
    (∀ r : UploadResult,
        runUpload store meta classif agentRun crmO riskO = .ok r →
        agentRun store = .ok r.agentOutput ∧
        ∃ rec : InteractionRecord,
          r.newStore = store ++ [rec] ∧ rec.classification = classif) ∧
    (∀ r r' : UploadResult,
        runUpload store meta classif agentRun crmO riskO = .ok r →
        runUpload store meta classif' agentRun crmO' riskO' = .ok r' →
        r.agentOutput = r'.agentOutput) ∧
    (∀ r atd, json_process_input store data = .ok r →
        r.action_trigger_data = some atd →
        lookupField atd "intent" = some (latestIntent store)) ∧
    (∀ atd, (email_process_input (.str s) file_exists file_text store
        resp).action_trigger_data = some atd →
        lookupField atd "intent" = some (latestIntent store)) ∧
    (latestIntent store = latestIntent store' →
      json_process_input store data = json_process_input store' data ∧
      email_process_input (.str s) file_exists file_text store resp =
        email_process_input (.str s) file_exists file_text store' resp ∧
      pdf_process_input path_exists pdf_path pdf_text store =
        pdf_process_input path_exists pdf_path pdf_text store') ∧
    ∀ rec : InteractionRecord,
      latestIntent (store ++ [rec]) =
        (lookupField rec.classification "intent").getD .null := by
  have key : ∀ (cl : JObj) (cO rO : ℕ → AttemptOutcome) (r : UploadResult),
      runUpload store meta cl agentRun cO rO = .ok r →
      agentRun store = .ok r.agentOutput ∧
      ∃ rec : InteractionRecord,
        r.newStore = store ++ [rec] ∧ rec.classification = cl := by
    intro cl cO rO r h
    unfold runUpload at h
    cases h1 : agentRun store with
    | error e => rw [h1, error_bind] at h; cases h
    | ok agentOut =>
        rw [h1, ok_bind] at h
        try simp only [] at h
        cases hname : routedAgentName cl with
        | error e => rw [hname, error_bind] at h; cases h
        | ok agentName =>
            rw [hname, ok_bind] at h
            try simp only [] at h
            cases hint : classifIntent cl with
            | error e => rw [hint, error_bind] at h; cases h
            | ok intentJ =>
                rw [hint, ok_bind] at h
                try simp only [] at h
                cases heff : trigger_final_action intentJ
                    (objSet (agentOut.action_trigger_data.getD [])
                      "chained_action" (optStr agentOut.chained_action)) with
                | error e => rw [heff, error_bind] at h; cases h
                | ok eff =>
                    rw [heff, ok_bind] at h
                    try simp only [] at h
                    cases hst : run_effect eff cO rO with
                    | error e => rw [hst, error_bind] at h; cases h
                    | ok status =>
                        rw [hst, ok_bind] at h
                        cases h
                        exact ⟨rfl, ⟨_, rfl, rfl⟩⟩
  refine ⟨fun r h => key classif crmO riskO r h, ?_, ?_, ?_, ?_, ?_⟩
  · intro r r' h h'
    obtain ⟨h1, -⟩ := key classif crmO riskO r h
    obtain ⟨h1', -⟩ := key classif' crmO' riskO' r' h'
    rw [h1] at h1'
    exact (Except.ok.injEq _ _).mp h1'
  · exact fun r atd hr hatd =>
      json_process_intent_from_store store data r hr atd hatd
  · exact email_process_intent_from_store s file_text file_exists store resp
  · intro h
    exact ⟨json_process_store_latest store store' data h,
           email_process_store_latest (.str s) file_exists file_text store store'
             resp h,
           pdf_process_store_latest path_exists pdf_path pdf_text store store' h⟩
  · exact latestIntent_append store

/-- The concrete completed run used by the C9 witness (empty prior store). -/
def c9RunClassif : JObj :=
  [("intent", .str "Fraud Risk"), ("routed_agent", .str "JSONAgent")]

/-- The result of that run, computed once and reused. -/
def c9RunResult : UploadResult :=
  ⟨c9RunClassif, ⟨.obj [], some "Log Anomaly", none⟩,
   "Interaction logged and closed (routine)",
   [⟨[], c9RunClassif, .obj [("JSONAgent", .obj [])],
     ["Interaction logged and closed (routine)"]⟩]⟩

/-- Witness for C9: with an empty prior store the JSON extractor observes no
intent at all (the early Log Anomaly return); the run's single write appends
the record carrying the current classification; the PDF extractor behaves
identically on two stores with the same latest intent; and reading latest
after the append returns the persisted intent. -/
theorem C9_extractor_reads_previous_run_witness :
    json_process_input [] [] = .ok c9RunResult.agentOutput ∧
    c9RunResult.newStore =
      [] ++ [⟨[], c9RunClassif, .obj [("JSONAgent", .obj [])],
              ["Interaction logged and closed (routine)"]⟩] ∧
    pdf_process_input true "doc.pdf" "some text" [] =
      pdf_process_input true "doc.pdf" "some text" [⟨[], [], .obj [], []⟩] ∧
    latestIntent ([] ++ [⟨[], c9RunClassif, .obj [("JSONAgent", .obj [])],
        ["Interaction logged and closed (routine)"]⟩]) = .str "Fraud Risk" := by
  obtain ⟨key1, -, -, -, hdep, happ⟩ :=
    C9_extractor_reads_previous_run [] [⟨[], [], .obj [], []⟩] [] c9RunClassif
      [] [] "mail" "" "doc.pdf" "some text" false true .raised
      (fun st => json_process_input st [])
      (fun _ => .ok) (fun _ => .ok) (fun _ => .transient) (fun _ => .transient)
  obtain ⟨hjson, -⟩ := key1 c9RunResult rfl
  obtain ⟨-, -, hpdf⟩ := hdep rfl
  refine ⟨hjson, rfl, hpdf, ?_⟩
  rw [happ]
  rfl

/-! ## C3 -/

/-- A successful `v[k]` means `v` is a dict containing `k`. -/
theorem pyIndexKey_ok_obj (c : JValue) (k : String) (v : JValue)
    (h : pyIndexKey c k = .ok v) :
    ∃ o, c = .obj o ∧ lookupField o k = some v := by
  cases c with
  | obj o =>
      refine ⟨o, rfl, ?_⟩
      cases hl : lookupField o k with
      | none => rw [pyIndexKey, hl] at h; cases h
      | some x => rw [pyIndexKey, hl] at h; cases h; rfl
  | null => cases h
  | bool b => cases h
  | num q => cases h
  | str s => cases h
  | arr xs => cases h

/-- `pyAllKeys` succeeds with `true` on a dict exactly when the three
required keys are present. -/
theorem pyAllKeys_obj_true (o : JObj) (h : pyAllKeys (.obj o) = .ok true) :
    (lookupField o "format").isSome ∧ (lookupField o "intent").isSome ∧
    (lookupField o "routed_agent").isSome := by
  by_cases h1 : (lookupField o "format").isSome
  · by_cases h2 : (lookupField o "intent").isSome
    · by_cases h3 : (lookupField o "routed_agent").isSome
      · exact ⟨h1, h2, h3⟩
      · exfalso
        simp [pyAllKeys, pyContainsKey, h1, h2, h3, ok_bind, pure, Except.pure] at h
  
    · exfalso
      simp [pyAllKeys, pyContainsKey, h1, h2, ok_bind, pure, Except.pure] at h
  · exfalso
    simp [pyAllKeys, pyContainsKey, h1, ok_bind, pure, Except.pure] at h

/-- One enum-coercion step of the validation tail: after it, the field holds
an enum member, and every other key is untouched. -/
theorem coerce_step (o : JObj) (key : String) (enum : List String) (fv : JValue)
    (hlk : lookupField o key = some fv) (repl : String) (hrepl : repl ∈ enum) :
    ∃ o1, coerceField (.obj o) key enum fv repl = .obj o1 ∧
      (∃ f, lookupField o1 key = some (.str f) ∧ f ∈ enum) ∧
      (∀ k, k ≠ key → lookupField o1 k = lookupField o k) := by
  unfold coerceField
  by_cases hf : inStrList fv enum
  · refine ⟨o, by simp [hf], ?_, fun k _ => rfl⟩
    cases fv with
    | str t => exact ⟨t, hlk, by simpa [inStrList] using hf⟩
    | null => simp [inStrList] at hf
    | bool b => simp [inStrList] at hf
    | num q => simp [inStrList] at hf
    | arr xs => simp [inStrList] at hf
    | obj flds => simp [inStrList] at hf
  · refine ⟨objSet o key (.str repl), by simp [hf, pySetKey], ⟨repl, ?_, hrepl⟩, ?_⟩
    · exact lookupField_objSet_self o key (.str repl)
    · intro k hk
      exact lookupField_objSet_ne o key k (.str repl) hk

theorem classify_validate_ok_fields (c c' : JValue)
    (h : classify_validate c = .ok c') :
    (∃ f, jGet c' "format" = some (.str f) ∧ f ∈ classification_format_enum) ∧
    (∃ i, jGet c' "intent" = some (.str i) ∧ i ∈ classification_intent_enum) ∧
    (∃ a, jGet c' "routed_agent" = some (.str a) ∧ a ∈ classification_agent_enum) := by
  unfold classify_validate at h
  split at h
  · cases h
  · cases h
  · rename_i hall
    split at h
    · cases h
    · rename_i fv hfok
      obtain ⟨o, rfl, hfo⟩ := pyIndexKey_ok_obj _ _ _ hfok
      obtain ⟨-, h2, h3⟩ := pyAllKeys_obj_true o hall
      obtain ⟨iv0, hiv0⟩ := Option.isSome_iff_exists.mp h2
      obtain ⟨rv0, hrv0⟩ := Option.isSome_iff_exists.mp h3
      obtain ⟨o1, ho1, hfmt1, hoth1⟩ :=
        coerce_step o "format" classification_format_enum fv hfo "Unknown" (by decide)
      rw [ho1] at h
      have hpi : pyIndexKey (.obj o1) "intent" = .ok iv0 := by
        simp [pyIndexKey, hoth1 "intent" (by decide), hiv0]
      rw [hpi] at h
      have hint1 : lookupField o1 "intent" = some iv0 := by
        rw [hoth1 "intent" (by decide), hiv0]
      obtain ⟨o2, ho2, hint2, hoth2⟩ :=
        coerce_step o1 "intent" classification_intent_enum iv0 hint1 "Unknown" (by decide)
      simp only [] at h
      rw [ho2] at h
      have hpr : pyIndexKey (.obj o2) "routed_agent" = .ok rv0 := by
        simp [pyIndexKey, hoth2 "routed_agent" (by decide),
              hoth1 "routed_agent" (by decide), hrv0]
      rw [hpr] at h
      simp only [] at h
      have hra2 : lookupField o2 "routed_agent" = some rv0 := by
        rw [hoth2 _ (by decide), hoth1 _ (by decide), hrv0]
      obtain ⟨o3, ho3, hagent3, hoth3⟩ :=
        coerce_step o2 "routed_agent" classification_agent_enum rv0 hra2
          "UnknownAgent" (by decide)
      rw [ho3] at h
      cases h
      refine ⟨?_, ?_, ?_⟩
      · obtain ⟨f, hf, hfm⟩ := hfmt1
        refine ⟨f, ?_, hfm⟩
        show lookupField o3 "format" = some (.str f)
        rw [hoth3 _ (by decide), hoth2 _ (by decide)]
        exact hf
      · obtain ⟨i, hi, him⟩ := hint2
        refine ⟨i, ?_, him⟩
        show lookupField o3 "intent" = some (.str i)
        rw [hoth3 _ (by decide)]
        exact hi
      · obtain ⟨a, ha, ham⟩ := hagent3
        exact ⟨a, ha, ham⟩

/-- The heuristic format is always one of the four enumerated formats. -/
theorem infer_format_mem (v : JValue) :
    infer_format_heuristic v ∈ classification_format_enum := by
  cases v with
  | str s =>
      simp only [infer_format_heuristic]
      split_ifs <;> simp [classification_format_enum]
  | null => simp [infer_format_heuristic, classification_format_enum]
  | bool b => simp [infer_format_heuristic, classification_format_enum]
  | num q => simp [infer_format_heuristic, classification_format_enum]
  | arr xs => simp [infer_format_heuristic, classification_format_enum]
  | obj o => simp [infer_format_heuristic, classification_format_enum]

/-- The format-to-agent map lands in the agent enumeration. -/
theorem routed_agent_for_format_mem (f : String) :
    routed_agent_for_format f ∈ classification_agent_enum := by
  unfold routed_agent_for_format
  split_ifs <;> simp [classification_agent_enum]

/-- The heuristic fallback classification has all fields inside their
enumerations (intent always "Unknown"). -/
theorem heuristic_classification_fields (input_content : JValue) :
    (∃ f, jGet (heuristic_classification input_content) "format" =
        some (.str f) ∧ f ∈ classification_format_enum) ∧
    (∃ i, jGet (heuristic_classification input_content) "intent" =
        some (.str i) ∧ i ∈ classification_intent_enum) ∧
    (∃ a, jGet (heuristic_classification input_content) "routed_agent" =
        some (.str a) ∧ a ∈ classification_agent_enum) :=
  ⟨⟨infer_format_heuristic input_content, rfl, infer_format_mem _⟩,
   ⟨"Unknown", rfl, by decide⟩,
   ⟨routed_agent_for_format (infer_format_heuristic input_content), rfl,
    routed_agent_for_format_mem _⟩⟩

/-- Every successful path through the `try` block is a successful validation
of some candidate value. -/
theorem classify_try_ok (resp : GeminiResp) (c : JValue)
    (h : classify_try resp = .ok c) :
    ∃ c0, classify_validate c0 = .ok c := by
  cases resp with
  | raised => cases h
  | noneResp => exact ⟨default_classification, h⟩
  | dictResp o => exact ⟨.obj o, h⟩
  | strResp s parsed =>
      cases parsed with
      | fails => exact ⟨default_classification, h⟩
      | succeeds v => exact ⟨v, h⟩
  | otherResp v => exact ⟨default_classification, h⟩

/-- C3: `classify` never raises (it is a total function of the observed
response), and for every possible external-classifier response — a well-formed
dict, a dict with missing keys or out-of-enum values, unparsable text, some
other JSON value, no response, or a raised call — the returned classification
is a dict whose `format` lies in {JSON, Email, PDF, Unknown}, `intent` in
{RFQ, Complaint, Invoice, Regulation, Fraud Risk, Unknown} and `routed_agent`
in {EmailAgent, JSONAgent, PDFAgent, UnknownAgent}: out-of-enum values are
coerced to the Unknown variant, and unusable shapes fall back to the
heuristic classification. -/
theorem C3_classify_fields_in_enums (resp : GeminiResp) (input_content : JValue) :
    (∃ f, jGet (classify resp input_content) "format" = some (.str f) ∧
        f ∈ classification_format_enum) ∧
    (∃ i, jGet (classify resp input_content) "intent" = some (.str i) ∧
        i ∈ classification_intent_enum) ∧
    (∃ a, jGet (classify resp input_content) "routed_agent" = some (.str a) ∧
        a ∈ classification_agent_enum) := by
  unfold classify
  cases hv : classify_try resp with
  | error e => exact heuristic_classification_fields input_content
  | ok c =>
      obtain ⟨c0, hc0⟩ := classify_try_ok resp c hv
      exact classify_validate_ok_fields c0 c hc0

/-! ## C4 -/

/-- C4, evaluated at the failing input: for the dict input `{"a": 1}` whose
external classification call returns the unparsable text "Here is my answer",
the `JSONDecodeError` is swallowed, the initial all-Unknown classification
passes validation unchanged, and `classify` returns format "Unknown" — the
Heuristic Classifier, which for this dict input yields format "JSON" routed
to JSONAgent, is never invoked, despite the in-code decision trace
"Attempting heuristic fallback" and the claim.  (The heuristic IS used when
the call itself raises, last conjunct.) -/
theorem C4_unparsable_output_skips_heuristic :
    classify (.strResp "Here is my answer" .fails) (.obj [("a", .num 1)]) =
      default_classification ∧
    jGet (classify (.strResp "Here is my answer" .fails)
        (.obj [("a", .num 1)])) "format" = some (.str "Unknown") ∧
    heuristic_classification (.obj [("a", .num 1)]) =
      .obj [("format", .str "JSON"), ("intent", .str "Unknown"),
            ("routed_agent", .str "JSONAgent")] ∧
    classify .raised (.obj [("a", .num 1)]) =
      .obj [("format", .str "JSON"), ("intent", .str "Unknown"),
            ("routed_agent", .str "JSONAgent")] :=
  ⟨rfl, rfl, rfl, rfl⟩

/-! ## C5 -/

/-- The tone entry after the email agent's `update`. -/
theorem email_atd_tone (extracted : JValue) (atd0 : JObj) :
    lookupField (email_updated_atd extracted atd0) "tone" =
      some (jGetD extracted "tone" (.str "Unknown")) := by
  unfold email_updated_atd
  rw [lookupField_objSet_ne _ _ _ _ (by decide),
      lookupField_objSet_ne _ _ _ _ (by decide),
      lookupField_objSet_ne _ _ _ _ (by decide),
      lookupField_objSet_self]

/-- The urgency entry after the email agent's `update`. -/
theorem email_atd_urgency (extracted : JValue) (atd0 : JObj) :
    lookupField (email_updated_atd extracted atd0) "urgency" =
      some (jGetD extracted "urgency" (.str "Unknown")) := by
  unfold email_updated_atd
  rw [lookupField_objSet_ne _ _ _ _ (by decide),
      lookupField_objSet_ne _ _ _ _ (by decide),
      lookupField_objSet_ne _ _ _ _ (by decide),
      lookupField_objSet_ne _ _ _ _ (by decide),
      lookupField_objSet_self]

/-- The chained action of a successful email extraction, as a function of the
extracted tone and urgency (source branch order). -/
theorem email_success_chained (extracted : JValue) (atd0 : JObj) :
    (email_success extracted atd0).chained_action =
      some (if eqStr (jGetD extracted "tone" (.str "Unknown")) "Escalation" ||
               inStrList (jGetD extracted "urgency" (.str "Unknown"))
                 ["High", "Critical"] then "Escalate to CRM"
            else if eqStr (jGetD extracted "tone" (.str "Unknown")) "Threatening"
            then "Flag Risk and Escalate"
            else "Log and Close") := by
  unfold email_success
  rw [email_atd_tone, email_atd_urgency]
  rfl

/-- C5 counterexample: an email whose extraction yields tone "Threatening"
together with urgency "High" gets chained action "Escalate to CRM" (the
escalation branch is evaluated first), not "Flag Risk and Escalate" as the
claim asserts for every Threatening tone. -/
theorem C5_threatening_high_urgency_cex :
    (email_process_input (.str "mail") false "" []
        (.dictResp [("tone", .str "Threatening"),
                    ("urgency", .str "High")])).chained_action =
      some "Escalate to CRM" ∧
    ("Escalate to CRM" : String) ≠ "Flag Risk and Escalate" :=
  ⟨rfl, by decide⟩

/-- C5 (amended): for every email extraction whose external call succeeds
with a dict (directly, or parsed from returned text), the chained action is
decided by the ordered rule: tone = Escalation OR urgency ∈ {High, Critical}
→ "Escalate to CRM"; else tone = Threatening → "Flag Risk and Escalate";
else "Log and Close".  Consequently, when the extracted tone is Threatening
and the urgency is not High or Critical, the chained action is
"Flag Risk and Escalate", and the final resolved action is the risk alert
for every classified intent and trigger context carrying that label. -/
theorem C5_email_tone_rule (s file_text : String) (file_exists : Bool)
    (store : List InteractionRecord) (o : JObj) (resp : GeminiResp)
    (hresp : resp = .dictResp o ∨ resp = .strResp s (.succeeds (.obj o))) :
    (email_process_input (.str s) file_exists file_text store resp).chained_action =
      some (if eqStr (jGetD (.obj o) "tone" (.str "Unknown")) "Escalation" ||
               inStrList (jGetD (.obj o) "urgency" (.str "Unknown"))
                 ["High", "Critical"] then "Escalate to CRM"
            else if eqStr (jGetD (.obj o) "tone" (.str "Unknown")) "Threatening"
            then "Flag Risk and Escalate"
            else "Log and Close") ∧
    (jGetD (.obj o) "tone" (.str "Unknown") = .str "Threatening" →
      inStrList (jGetD (.obj o) "urgency" (.str "Unknown"))
          ["High", "Critical"] = false →
      (email_process_input (.str s) file_exists file_text store resp).chained_action =
        some "Flag Risk and Escalate" ∧
      ∀ (intent : JValue) (d : JObj),
        lookupField d "chained_action" = some (.str "Flag Risk and Escalate") →
        trigger_final_action intent d =
          .ok ⟨.riskAlert, "Specialized Agent Risk Flag (Escalate)"⟩) := by
  have hch : email_process_input (.str s) file_exists file_text store resp =
      email_success (.obj o) (email_initial_trigger_data store) := by
    rcases hresp with rfl | rfl <;> rfl
  rw [hch, email_success_chained]
  refine ⟨rfl, ?_⟩
  intro ht hu
  rw [ht, hu]
  refine ⟨rfl, ?_⟩
  intro intent d hd
  exact trigger_recognized intent d _ hd (by decide)

/-- Witness for C5 at tone "Threatening", urgency "Low", intent Invoice. -/
theorem C5_email_tone_rule_witness :
    (email_process_input (.str "mail") false "" []
        (.dictResp [("tone", .str "Threatening"),
                    ("urgency", .str "Low")])).chained_action =
      some "Flag Risk and Escalate" ∧
    trigger_final_action (.str "Invoice")
        [("chained_action", .str "Flag Risk and Escalate")] =
      .ok ⟨.riskAlert, "Specialized Agent Risk Flag (Escalate)"⟩ := by
  obtain ⟨-, h2⟩ := C5_email_tone_rule "mail" "" false []
      [("tone", JValue.str "Threatening"), ("urgency", JValue.str "Low")]
      (.dictResp [("tone", JValue.str "Threatening"),
                  ("urgency", JValue.str "Low")])
      (Or.inl rfl)
  obtain ⟨h3, h4⟩ := h2 rfl rfl
  exact ⟨h3, h4 (.str "Invoice")
      [("chained_action", JValue.str "Flag Risk and Escalate")] rfl⟩

/-! ## C6 -/

/-- C6 counterexample: when the external extraction returns unparsable text,
`process_input` returns chained action "Log and Close", not none as the
claim states. -/
theorem C6_unparsable_chained_not_none_cex :
    (email_process_input (.str "mail") false "" []
        (.strResp "not json at all" .fails)).chained_action =
      some "Log and Close" ∧
    some "Log and Close" ≠ (none : Option String) :=
  ⟨rfl, by decide⟩

/-- C6 (amended): the email extractor never propagates an exception (it is a
total function of the observed response).  When the external capability
raises, it returns empty extracted fields with no chained action.  When the
capability instead returns output that does not parse into the expected
dict shape — unparsable text or no response — the extracted fields are empty
but the chained action is "Log and Close" (the defaulted Unknown tone and
urgency feed the decision rule); a parseable non-dict JSON value yields no
chained action with that value as the extracted data. -/
theorem C6_email_failure_handling (s file_text : String) (file_exists : Bool)
    (store : List InteractionRecord) :
    email_process_input (.str s) file_exists file_text store .raised =
      ⟨.obj [], none, some (email_initial_trigger_data store)⟩ ∧
    (∀ t, (email_process_input (.str s) file_exists file_text store
        (.strResp t .fails)).extracted_data = .obj [] ∧
      (email_process_input (.str s) file_exists file_text store
        (.strResp t .fails)).chained_action = some "Log and Close") ∧
    (email_process_input (.str s) file_exists file_text store
        .noneResp).extracted_data = .obj [] ∧
    (email_process_input (.str s) file_exists file_text store
        .noneResp).chained_action = some "Log and Close" ∧
    ∀ n, email_process_input (.str s) file_exists file_text store
        (.strResp "null" (.succeeds (.num n))) =
      ⟨.num n, none, some (email_initial_trigger_data store)⟩ :=
  ⟨rfl, fun _ => ⟨rfl, rfl⟩, rfl, rfl, fun _ => rfl⟩

/-! ## C7 -/

/-- The fraud-risk scenario's structured-data input
(risk_score 0.95 exceeds the 0.8 threshold). -/
def fraudData : JObj :=
  [("transaction_id", .str "T1"), ("amount", .num 15000), ("user_id", .str "U1"),
   ("risk_score", .num 0.95), ("ip_address", .str "1.2.3.4")]

/-- A store whose most recently persisted classification has intent
"Fraud Risk" (what the JSON agent reads back). -/
def fraudStore : List InteractionRecord :=
  [⟨[], [("intent", .str "Fraud Risk")], .obj [], []⟩]

/-- The current run's classification for the fraud-risk scenario. -/
def fraudClassif : JObj :=
  [("format", .str "JSON"), ("intent", .str "Fraud Risk"),
   ("routed_agent", .str "JSONAgent")]

/-- C7: for the structured-data input
`{"transaction_id":"T1","amount":15000,"user_id":"U1","risk_score":0.95,
"ip_address":"1.2.3.4"}` processed under intent "Fraud Risk", schema
validation reports zero errors, the chained action is "Flag Fraud Risk" with
`risk_level = "High"` in the trigger context (0.95 > 0.8), the router
resolves the risk alert (via the Fraud Risk fallback rule, since
"Flag Fraud Risk" is not a Strategy 1 label), and the full run's final status
is the risk-alert call's result. -/
theorem C7_fraud_risk_scenario :
    validate_json_schema fraudData (.str "Fraud Risk") = [] ∧
    json_process_input fraudStore fraudData =
      .ok ⟨.obj fraudData, some "Flag Fraud Risk",
           some (objSet (json_validation_atd fraudStore fraudData)
                  "risk_level" (.str "High"))⟩ ∧
    lookupField (objSet (json_validation_atd fraudStore fraudData)
        "risk_level" (.str "High")) "risk_level" = some (.str "High") ∧
    trigger_final_action (.str "Fraud Risk")
        (objSet (objSet (json_validation_atd fraudStore fraudData)
           "risk_level" (.str "High")) "chained_action"
          (.str "Flag Fraud Risk")) =
      .ok ⟨.riskAlert, "Classifier-driven Fraud Risk Detected"⟩ ∧
    (runUpload fraudStore [] fraudClassif
        (fun st => json_process_input st fraudData)
        (fun _ => .ok) (fun _ => .ok)).map UploadResult.finalStatus =
      .ok "Risk alert simulated" := by
  have h95 : ((0.95 : ℚ) > 4/5) := by norm_num
  have hgt : pyGt (getDefault fraudData "risk_score" (.num 0)) (4/5) = .ok true := by
    show Except.ok (decide ((0.95 : ℚ) > 4/5)) = Except.ok true
    rw [decide_eq_true h95]
  have hjson : json_process_input fraudStore fraudData =
      .ok ⟨.obj fraudData, some "Flag Fraud Risk",
           some (objSet (json_validation_atd fraudStore fraudData)
                  "risk_level" (.str "High"))⟩ := by
    unfold json_process_input
    rw [hgt]
    rfl
  have hjson2 : (fun st => json_process_input st fraudData) fraudStore =
      .ok (⟨.obj fraudData, some "Flag Fraud Risk",
           some (objSet (json_validation_atd fraudStore fraudData)
                  "risk_level" (.str "High"))⟩ : AgentResult) := hjson
  have hrun : runUpload fraudStore [] fraudClassif
      (fun st => json_process_input st fraudData)
      (fun _ => .ok) (fun _ => .ok) =
      .ok ⟨fraudClassif,
           ⟨.obj fraudData, some "Flag Fraud Risk",
            some (objSet (json_validation_atd fraudStore fraudData)
                   "risk_level" (.str "High"))⟩,
           "Risk alert simulated",
           fraudStore ++ [⟨[], fraudClassif,
             .obj [("JSONAgent", .obj fraudData)], ["Risk alert simulated"]⟩]⟩ := by
    unfold runUpload
    rw [hjson2]
    rfl
  exact ⟨rfl, hjson, rfl, rfl, by rw [hrun]; rfl⟩

/-! ## C8 -/

/-- A store whose most recently persisted classification has intent
"Invoice". -/
def invoiceStore : List InteractionRecord :=
  [⟨[], [("intent", .str "Invoice")], .obj [], []⟩]

/-- C8 counterexample: the text "Total: $2.00 Total: $12,500.00" contains the
substring "Total: $12,500.00", yet under intent Invoice the leftmost match of
the total pattern captures "2.00", so the parsed total is 2.0 and the chained
action is "Process Invoice" — not 12500.0 and "Flag High Value Invoice" as
the claim asserts for every text containing that substring. -/
theorem C8_earlier_total_wins_cex :
    strContainsL "Total: $12,500.00".data
      "Total: $2.00 Total: $12,500.00".data = true ∧
    (searchOpt totalAmountAt "Total: $2.00 Total: $12,500.00".data).map
      (fun l => String.mk l) = some "2.00" ∧
    parse_invoice_data "Total: $2.00 Total: $12,500.00".data =
      .ok (invoice_fields "Total: $2.00 Total: $12,500.00".data 2) ∧
    (pdf_process_input true "doc.pdf" "Total: $2.00 Total: $12,500.00"
        invoiceStore).map AgentResult.chained_action =
      .ok (some "Process Invoice") ∧
    some "Process Invoice" ≠ some "Flag High Value Invoice" := by
  have hparse : parse_invoice_data "Total: $2.00 Total: $12,500.00".data =
      .ok (invoice_fields "Total: $2.00 Total: $12,500.00".data 2) := by
    show Except.ok (invoice_fields "Total: $2.00 Total: $12,500.00".data
        (((2 : ℕ) : ℚ) + ((0 : ℕ) : ℚ) / 10 ^ 2)) = _
    norm_num
  refine ⟨rfl, rfl, hparse, ?_, by decide⟩
  have hrun : pdf_process_input true "doc.pdf" "Total: $2.00 Total: $12,500.00"
      invoiceStore =
      .ok ⟨.obj (objSet (pdf_extracted0 "Total: $2.00 Total: $12,500.00")
             "invoice_details"
             (.obj (invoice_fields "Total: $2.00 Total: $12,500.00".data 2))),
           some "Process Invoice",
           some (pdf_atd0 "doc.pdf" "Total: $2.00 Total: $12,500.00")⟩ := by
    unfold pdf_process_input
    rw [hparse]
    rfl
  rw [hrun]
  rfl

/-- C8 (amended): for every document text whose leftmost match of the
total-amount pattern captures "12,500.00" (in particular the text
"Total: $12,500.00" itself) and which is not flagged as an extraction
failure, processing under an Invoice intent parses the total as exactly
12500.0 — the comma is stripped before the numeric parse — the chained
action is "Flag High Value Invoice" because 12500 > 10000, and the router
resolves the risk alert for every intent and trigger context carrying that
label. -/
theorem C8_high_value_invoice (pdf_path pdf_text : String)
    (store : List InteractionRecord)
    (hpath : endsWithL (lowerStr pdf_path) ".pdf" = true)
    (hok : pdf_extraction_failed pdf_text = false)
    (hintent : latestIntent store = .str "Invoice")
    (hmatch : (searchOpt totalAmountAt pdf_text.data).map (fun l => String.mk l) =
      some "12,500.00") :
    parse_invoice_data pdf_text.data = .ok (invoice_fields pdf_text.data 12500) ∧
    lookupField (invoice_fields pdf_text.data 12500) "total_amount" =
      some (.num 12500) ∧
    (pdf_process_input true pdf_path pdf_text store).map
      AgentResult.chained_action = .ok (some "Flag High Value Invoice") ∧
    ∀ (intent : JValue) (d : JObj),
      lookupField d "chained_action" = some (.str "Flag High Value Invoice") →
      trigger_final_action intent d =
        .ok ⟨.riskAlert, "High Value Invoice Alert"⟩ := by
  obtain ⟨g, hg, hgs⟩ := Option.map_eq_some'.mp hmatch
  have hgl : g = "12,500.00".data := congrArg String.data hgs
  subst hgl
  have hparse : parse_invoice_data pdf_text.data =
      .ok (invoice_fields pdf_text.data 12500) := by
    unfold parse_invoice_data
    rw [hg]
    show Except.ok (invoice_fields pdf_text.data
        (((12500 : ℕ) : ℚ) + ((0 : ℕ) : ℚ) / 10 ^ 2)) = _
    norm_num
  have hrun : pdf_process_input true pdf_path pdf_text store =
      .ok ⟨.obj (objSet (pdf_extracted0 pdf_text) "invoice_details"
             (.obj (invoice_fields pdf_text.data 12500))),
           some "Flag High Value Invoice",
           some (objSet (objSet (pdf_atd0 pdf_path pdf_text) "invoice_total"
                  (getDefault (invoice_fields pdf_text.data 12500)
                    "total_amount" .null))
                 "invoice_number"
                 ((lookupField (invoice_fields pdf_text.data 12500)
                    "invoice_number").getD .null))⟩ := by
    unfold pdf_process_input
    rw [hparse, hintent, hpath, hok]
    rfl
  refine ⟨hparse, rfl, ?_, ?_⟩
  · rw [hrun]
    rfl
  · intro intent d hd
    exact trigger_recognized intent d _ hd (by decide)

/-- Witness for C8 at the text "Total: $12,500.00" with path "doc.pdf",
resolved under intent Unknown. -/
theorem C8_high_value_invoice_witness :
    parse_invoice_data "Total: $12,500.00".data =
      .ok (invoice_fields "Total: $12,500.00".data 12500) ∧
    lookupField (invoice_fields "Total: $12,500.00".data 12500) "total_amount" =
      some (.num 12500) ∧
    (pdf_process_input true "doc.pdf" "Total: $12,500.00" invoiceStore).map
      AgentResult.chained_action = .ok (some "Flag High Value Invoice") ∧
    trigger_final_action (.str "Unknown")
        [("chained_action", .str "Flag High Value Invoice")] =
      .ok ⟨.riskAlert, "High Value Invoice Alert"⟩ := by
  obtain ⟨h1, h2, h3, h4⟩ :=
    C8_high_value_invoice "doc.pdf" "Total: $12,500.00" invoiceStore rfl rfl rfl rfl
  exact ⟨h1, h2, h3,
    h4 (.str "Unknown") [("chained_action", JValue.str "Flag High Value Invoice")] rfl⟩
